import Mathlib

/-!
Shallow embedding of the generic execution-and-verdict engine of the
`public-tests-2025` grading harness (`src/testsuites/suite.py` and the scoring
helper of `src/main.py`), together with theorems settling the behavioural
claims about it.

Modelling conventions:
* Python `Optional[T]` becomes `Option T`; a raised exception becomes the
  `Except.error` branch of the surrounding computation.
* The captured stdout/stderr of `subprocess.Popen(..., universal_newlines=True,
  stdout=PIPE, stderr=PIPE).communicate()` are always `str`, never `None`, so
  `UserProcess.stdout`/`stderr` are plain `String`; the defensive
  `x == "" or x is None` checks of the source collapse to `x = ""`.
* The operating-system behaviour of the one child process launched per test
  (did `Popen`/`communicate` raise, did the timeout fire, what was captured)
  is abstracted into a `RawRun` oracle value supplied per test case; the
  branching of `Test.__runner` / `Test.run` / `Tester.run` on top of that
  oracle is modelled faithfully, including the tuple-shaped return value of
  the raw-stdin branch of `Test.__runner`.
* Python `float` is modelled as `Rat` (all scores in the engine are ratios of
  small integers and sums of their products).
* A Python `dict` is modelled as an association list with duplicate-free keys
  and `List.lookup` access; a Python `set` as a duplicate-free list.
* Domain comparators (`Comparator` subclasses) carry only one overridable
  operation `test`; a comparator object is modelled as a value of an abstract
  type `C` together with an interpretation `testImpl : C → UserProcess →
  Test C → Result` for its `test` method, while the sealed `pretest` is the
  concrete function below.
-/

namespace SuitePy

/-- The `Errno` enumeration of `suite.py` (verdict tags). -/
inductive Errno where
  | ERROR_SUCCESS
  | ERROR_SHOULD_PASS
  | ERROR_SHOULD_FAIL
  | ERROR_STDERR_EMPTY
  | ERROR_STDOUT_NOT_EMPTY
  | ERROR_STDERR_NOT_EMPTY
  | ERROR_EXITCODE
  | ERROR_ASSERTION
  | ERROR_TIMEOUT
  | ERROR_FILE_NOT_FOUND
  | ERROR_FILE_CREATED_ON_ERROR
  | ERROR_FILE_RECREATED_ON_ERROR
  | ERROR_TYPE_ERROR
  | ERROR_NO_NEWLINE
  | ERROR_UNKNOWN
  deriving DecidableEq

/-- The string value associated with each `Errno` member in `suite.py`. -/
def Errno.value : Errno → String
  | .ERROR_SUCCESS => "success"
  | .ERROR_SHOULD_PASS => "program should not fail"
  | .ERROR_SHOULD_FAIL => "program should not return successful exitcode"
  | .ERROR_STDERR_EMPTY => "standard error output is empty"
  | .ERROR_STDOUT_NOT_EMPTY => "on error program should not writing anything to standard output"
  | .ERROR_STDERR_NOT_EMPTY => "on successful program should not writing anything to standard error output"
  | .ERROR_EXITCODE => "program returns wrong exitcode"
  | .ERROR_ASSERTION => "assertion"
  | .ERROR_TIMEOUT => "timeout expired"
  | .ERROR_FILE_NOT_FOUND => "file not found"
  | .ERROR_FILE_CREATED_ON_ERROR => "file was created (as empty or with undefined state) after failing"
  | .ERROR_FILE_RECREATED_ON_ERROR => "file was recreated (as empty or with undefined state) after failing"
  | .ERROR_TYPE_ERROR => "type casting error"
  | .ERROR_NO_NEWLINE => "no newline at EOF"
  | .ERROR_UNKNOWN => "unknown"

/-- `Result` of `suite.py`: a verdict tag plus optional free-text detail. -/
structure Result where
  errno : Errno
  what : Option String
  deriving DecidableEq

/-- `Result.ok`: true iff the verdict is `ERROR_SUCCESS`. -/
def Result.ok (r : Result) : Bool :=
  r.errno == Errno.ERROR_SUCCESS

/-- `Result.get_verdict`: the tag string. -/
def Result.get_verdict (r : Result) : String :=
  r.errno.value

/-- `Result.get_additional_info`: the optional detail. -/
def Result.get_additional_info (r : Result) : Option String :=
  r.what

/-- One step of `escape` of `suite.py`: translation of a single character. -/
def escapeChar (c : Char) : String :=
  if c = '\n' then "\\n"
  else if c = '\r' then "\\r"
  else if c = '\t' then "\\t"
  else if c = '\\' then "\\\\"
  else String.singleton c

/-- `escape` of `suite.py`: escape newlines, carriage returns, tabs and
backslashes of a string, character by character. -/
def escape (x : String) : String :=
  x.data.foldl (fun s c => s ++ escapeChar c) ""

/-- Python rendering of an `Optional[int]` by `str()` inside an f-string
(`None` renders as the literal text `None`). -/
def optIntStr : Option Int → String
  | none => "None"
  | some n => toString n

/-- `err_ok` of `suite.py`. -/
def err_ok : Result :=
  ⟨Errno.ERROR_SUCCESS, none⟩

/-- `err_should_pass` of `suite.py`.  The Python parameter is annotated `int`,
but the call site in `Comparator.__should_pass` passes the raw
`Optional[int]` exit code, so the model takes `Option Int` and renders it the
way the f-string would. -/
def err_should_pass (exitcode : Option Int) : Result :=
  let a := optIntStr exitcode
  ⟨Errno.ERROR_SHOULD_PASS, some s!"program returned exitcode {a}"⟩

/-- `err_should_fail` of `suite.py`. -/
def err_should_fail : Result :=
  ⟨Errno.ERROR_SHOULD_FAIL, some "program returned exitcode = 0"⟩

/-- `err_stderr_empty` of `suite.py`. -/
def err_stderr_empty : Result :=
  ⟨Errno.ERROR_STDERR_EMPTY, some "program should write any human readable error message for user"⟩

/-- `err_stdout_not_empty` of `suite.py`. -/
def err_stdout_not_empty (stdout : String) : Result :=
  let s := escape stdout
  ⟨Errno.ERROR_STDOUT_NOT_EMPTY, some s!"stdout: \x27{s}\x27"⟩

/-- `err_stderr_not_empty` of `suite.py`. -/
def err_stderr_not_empty (stderr : String) : Result :=
  let s := escape stderr
  ⟨Errno.ERROR_STDERR_NOT_EMPTY, some s!"stderr: \x27{s}\x27"⟩

/-- `err_exitcode` of `suite.py`.  As with `err_should_pass`, the actual exit
code flowing in from `Comparator.__should_fail` is `Optional[int]`. -/
def err_exitcode (actual_exitcode : Option Int) (expected_exitcode : Int) : Result :=
  let a := optIntStr actual_exitcode
  ⟨Errno.ERROR_EXITCODE, some s!"expected {expected_exitcode}, but actual {a}"⟩

/-- `err_timeout` of `suite.py`. -/
def err_timeout : Result :=
  ⟨Errno.ERROR_TIMEOUT, none⟩

/-- `err_unknown` of `suite.py`: an `ERROR_UNKNOWN` verdict carrying the
escaped exception text. -/
def err_unknown (what : String) : Result :=
  ⟨Errno.ERROR_UNKNOWN, some (escape what)⟩

/-- `UserProcess` of `suite.py`: the captured outcome of one child process.
`exitcode = none` models Python `None`, the timeout sentinel; `timestamp` is
the elapsed wall time in milliseconds. -/
structure UserProcess where
  stdout : String
  stderr : String
  exitcode : Option Int
  timestamp : Int
  deriving DecidableEq

/-- `UserProcess.timeout`: the exit code is the `None` sentinel. -/
def UserProcess.timeout (p : UserProcess) : Bool :=
  p.exitcode == none

/-- A scalar of the heterogeneous Python input type
`Union[str, int, float, ...]`.  A float is carried together with its `str()`
rendering, since the engine only ever serialises scalars via `str()`. -/
inductive PyScalar where
  | str (s : String)
  | int (n : Int)
  | float (rendering : String)
  deriving DecidableEq

/-- Python `str()` applied to one input scalar. -/
def PyScalar.toStr : PyScalar → String
  | .str s => s
  | .int n => toString n
  | .float r => r

/-- The test-input specification: one scalar or a list of scalars
(`Union[str, int, float, List[str], List[int], List[float]]`). -/
inductive PyInput where
  | scalar (v : PyScalar)
  | list (vs : List PyScalar)
  deriving DecidableEq

/-- `to_list` of `suite.py`: serialise the input to a list of strings,
optionally appending one trailing empty string. -/
def to_list (input : PyInput) (need_newline : Bool) : List String :=
  match input with
  | .scalar v =>
    let l := [v.toStr]
    if need_newline then l ++ [""] else l
  | .list vs =>
    let l := vs.map PyScalar.toStr
    if need_newline then l ++ [""] else l

/-- `to_str` of `suite.py`: serialise the input to one string, joining list
items with the separator. -/
def to_str (input : PyInput) (separator : String) : String :=
  match input with
  | .scalar v => v.toStr
  | .list vs => String.intercalate separator (vs.map PyScalar.toStr)

/-- `Test` of `suite.py`, parametrised by the type `C` of domain comparator
objects (the Python field is typed `Any`).  Field names and order follow
`Test.__init__`. -/
structure Test (C : Type) where
  name : String
  categories : List String
  input : PyInput
  expected : Option PyInput
  output_stream : Option String
  timeout : Rat
  exitcode : Int
  is_stdin_input : Bool
  is_raw_input : Bool
  is_raw_output : Bool
  input_separator : String
  comparator : Option C
  deriving DecidableEq

/-- The `passes` attribute computed in `Test.__init__`:
`self.passes = exitcode == 0`. -/
def Test.passes {C : Type} (t : Test C) : Bool :=
  t.exitcode == 0

/-- `Comparator.__should_fail` of `suite.py`: the generic checks of an
expected-failure test case, in source order.  The emptiness checks collapse
`x == "" or x is None` to `x = ""` (captured streams are never `None`). -/
def should_fail {C : Type} (user_process : UserProcess) (test : Test C) : Result :=
  let stdout := user_process.stdout
  let stderr := user_process.stderr
  let returncode := user_process.exitcode
  if returncode = some 0 then
    err_should_fail
  else
    let empty_stderr := stderr = ""
    let empty_stdout := stdout = ""
    if empty_stderr then
      err_stderr_empty
    else if ¬empty_stdout then
      err_stdout_not_empty stdout
    else if returncode ≠ some test.exitcode then
      err_exitcode returncode test.exitcode
    else
      err_ok

/-- `Comparator.__should_pass` of `suite.py`: the generic checks of an
expected-pass test case; `none` is the defer-to-domain-test signal. -/
def should_pass (user_process : UserProcess) : Option Result :=
  let stderr := user_process.stderr
  let returncode := user_process.exitcode
  let empty_stderr := stderr = ""
  if returncode ≠ some 0 then
    some (err_should_pass returncode)
  else if ¬empty_stderr then
    some (err_stderr_not_empty stderr)
  else
    none

/-- `Comparator.pretest` of `suite.py`: dispatch on the expected contract of
the test case.  The expected-failure branch always produces a verdict. -/
def pretest {C : Type} (user_process : UserProcess) (test : Test C) : Option Result :=
  if test.passes then should_pass user_process
  else some (should_fail user_process test)

/-- Oracle describing what the operating system did for the one child process
a test launches: the launch (or stdin delivery) raised an exception with the
given message, the timeout fired after `elapsed` milliseconds, or the process
completed with the given captured streams, exit code and elapsed time. -/
inductive RawRun where
  | launchError (msg : String)
  | timedOut (elapsed : Int)
  | completed (stdout stderr : String) (exitcode : Int) (elapsed : Int)
  deriving DecidableEq

/-- The value `Test.__runner` actually returns when it does not raise:
either a `UserProcess` instance, or — in the raw-stdin completed branch
(line 244 of `suite.py`) — the bare tuple
`(end - start, (stdout, stderr, proc.returncode))`. -/
inductive RunnerReturn where
  | proc (p : UserProcess)
  | tup (elapsed : Int) (stdout stderr : String) (exitcode : Int)
  deriving DecidableEq

/-- `Test.__runner` of `suite.py` over the `RawRun` oracle.  Branch by
branch:
* an exception from `Popen`/`communicate` propagates (`Except.error`);
* `subprocess.TimeoutExpired` in any mode yields
  `UserProcess("", "", None, end - start)`;
* a completed process in stdin+raw mode yields the tuple
  `(end - start, (stdout, stderr, proc.returncode))` — not a `UserProcess`;
* a completed process in stdin+non-raw mode yields a `UserProcess` only when
  the input specification is a single string (a file path); otherwise the
  branch raises `ValueError` before communicating;
* a completed process in argument mode yields a `UserProcess`. -/
def Test.runnerModel {C : Type} (t : Test C) (raw : RawRun) : Except String RunnerReturn :=
  match raw with
  | .launchError msg => .error msg
  | .timedOut elapsed => .ok (.proc ⟨"", "", none, elapsed⟩)
  | .completed stdout stderr exitcode elapsed =>
    if t.is_stdin_input then
      if t.is_raw_input then
        .ok (.tup elapsed stdout stderr exitcode)
      else
        match t.input with
        | .scalar (.str _) => .ok (.proc ⟨stdout, stderr, some exitcode, elapsed⟩)
        | _ => .error "[FATAL ERROR] When it\x27s stdin communication and not as raw string producer, then it should be path/to/file with wanted contents."
    else
      .ok (.proc ⟨stdout, stderr, some exitcode, elapsed⟩)

/-- What `Test.run` hands back to `Tester.run`: dynamically one of a
`UserProcess`, the raw tuple, or a `Result` produced from a caught
exception (the Python annotation `Union[UserProcess, Result]` notwithstanding). -/
inductive RunReturn where
  | proc (p : UserProcess)
  | tup (elapsed : Int) (stdout stderr : String) (exitcode : Int)
  | res (r : Result)
  deriving DecidableEq

/-- `Test.run` of `suite.py`: call the runner, converting any raised
exception into `err_unknown` of its message. -/
def Test.run {C : Type} (t : Test C) (raw : RawRun) : RunReturn :=
  match t.runnerModel raw with
  | .error e => .res (err_unknown e)
  | .ok (.proc p) => .proc p
  | .ok (.tup elapsed stdout stderr exitcode) => .tup elapsed stdout stderr exitcode

/-- `Suite` of `suite.py`: the ordered record sequence of one run. -/
structure Suite (C : Type) where
  results : List (Test C × Option UserProcess × Result)
  deriving DecidableEq

/-- `Suite.add_result`: append one `(test, user_process, result)` triple. -/
def Suite.add_result {C : Type} (s : Suite C) (test : Test C)
    (user_process : Option UserProcess) (result : Result) : Suite C :=
  ⟨s.results ++ [(test, user_process, result)]⟩

/-- `Suite.ok`: every recorded verdict is a success. -/
def Suite.ok {C : Type} (s : Suite C) : Bool :=
  s.results.all (fun x => x.2.2.ok)

/-- `Suite.__get_number_passed`: how many records are successful and tagged
with the category. -/
def Suite.get_number_passed {C : Type} (s : Suite C) (category : String) : Nat :=
  s.results.countP (fun x => x.2.2.ok && x.1.categories.contains category)

/-- `Suite.__get_number_total`: how many records are tagged with the
category. -/
def Suite.get_number_total {C : Type} (s : Suite C) (category : String) : Nat :=
  s.results.countP (fun x => x.1.categories.contains category)

/-- `Suite.get_all_categories`: the set of categories occurring in the
records, modelled as concatenation followed by deduplication. -/
def Suite.get_all_categories {C : Type} (s : Suite C) : List String :=
  ((s.results.map (fun x => x.1.categories)).flatten).dedup

/-- `Suite.get_results`: the category score map, one `passed / total` ratio
per occurring category. -/
def Suite.get_results {C : Type} (s : Suite C) : List (String × Rat) :=
  s.get_all_categories.map
    (fun category =>
      (category, ((s.get_number_passed category : Rat) / (s.get_number_total category : Rat))))

/-- A JSON field value that is either a string or an integer (the `exitcode`
and `time` report fields mix sentinel strings with numbers). -/
inductive JsonVal where
  | str (s : String)
  | int (n : Int)
  deriving DecidableEq

/-- One `test_N` entry of the JSON report built by `Suite.json`. -/
structure JsonTestEntry where
  categories : List String
  passed : Bool
  verdict : String
  input : String
  verdict_additional_info : Option String
  name : String
  stdout : String
  stderr : String
  exitcode : JsonVal
  time : JsonVal
  deriving DecidableEq

/-- The body of the `Suite.json` loop for one record: build the
`json_single_result` dictionary.  `user_process is None` selects the four
`<process was killed>` sentinels; otherwise empty streams render as
placeholders, a `None` exit code renders as `<timeout>`, and `time` is the
measured `timestamp`. -/
def json_single_result {C : Type} (x : Test C × Option UserProcess × Result) : JsonTestEntry :=
  let test := x.1
  let user_process := x.2.1
  let result := x.2.2
  ⟨test.categories,
   result.ok,
   result.get_verdict,
   to_str test.input test.input_separator,
   result.get_additional_info,
   test.name,
   (match user_process with
    | none => "<process was killed>"
    | some p => if p.stdout = "" then "<no standard output>" else escape p.stdout),
   (match user_process with
    | none => "<process was killed>"
    | some p => if p.stderr = "" then "<no error output>" else escape p.stderr),
   (match user_process with
    | none => JsonVal.str "<process was killed>"
    | some p =>
      match p.exitcode with
      | none => JsonVal.str "<timeout>"
      | some c => JsonVal.int c),
   (match user_process with
    | none => JsonVal.str "<process was killed>"
    | some p => JsonVal.int p.timestamp)⟩

/-- `Suite.json` of `suite.py`: one entry per record, keyed `test_N` with `N`
the 1-based position. -/
def Suite.json {C : Type} (s : Suite C) : List (String × JsonTestEntry) :=
  s.results.enum.map
    (fun p =>
      let n := p.1 + 1
      (s!"test_{n}", json_single_result p.2))

/-- `Tester` of `suite.py`: the default comparator, the shared input-delivery
configuration and the registered test cases. -/
structure Tester (C : Type) where
  comparator : C
  is_stdin_input : Bool
  is_raw_input : Bool
  is_raw_output : Bool
  input_separator : String
  tests : List (Test C)
  deriving DecidableEq

/-- `Tester.__init__` of `suite.py`: reject (raise `NotImplementedError`) the
combination of argument-mode delivery with non-raw (file-based) input;
otherwise produce a `Tester` with no registered tests. -/
def Tester.init {C : Type} (comparator : C)
    (is_stdin_input is_raw_input is_raw_output : Bool)
    (input_separator : String) : Except String (Tester C) :=
  if ¬is_stdin_input ∧ ¬is_raw_input then
    .error "[FATAL ERROR] Not raw input (from file) with cmd\x27s arguments communication is not supported yet."
  else
    .ok ⟨comparator, is_stdin_input, is_raw_input, is_raw_output, input_separator, []⟩

/-- `Tester.add_success` of `suite.py`: register an expected-pass test case
(declared exit code 0). -/
def Tester.add_success {C : Type} (T : Tester C) (name : String) (input : PyInput)
    (expected : PyInput) (output_stream : Option String) (timeout : Rat)
    (categories : List String) (comparator : Option C) : Tester C :=
  let test : Test C :=
    ⟨name, categories, input, some expected, output_stream, timeout, 0,
     T.is_stdin_input, T.is_raw_input, T.is_raw_output, T.input_separator, comparator⟩
  ⟨T.comparator, T.is_stdin_input, T.is_raw_input, T.is_raw_output, T.input_separator,
   T.tests ++ [test]⟩

/-- `Tester.add_failed` of `suite.py`: register an expected-failure test case
with its declared nonzero exit code and no comparator override. -/
def Tester.add_failed {C : Type} (T : Tester C) (name : String) (input : PyInput)
    (exitcode : Int) (timeout : Rat) (categories : List String) : Tester C :=
  let test : Test C :=
    ⟨name, categories, input, none, none, timeout, exitcode,
     T.is_stdin_input, T.is_raw_input, T.is_raw_output, T.input_separator, none⟩
  ⟨T.comparator, T.is_stdin_input, T.is_raw_input, T.is_raw_output, T.input_separator,
   T.tests ++ [test]⟩

/-- The per-test-case body of the `Tester.run` loop, given the interpretation
`testImpl` of the abstract `Comparator.test` method and the default
comparator: classify the value `Test.run` handed back.  A `Result` records an
absent outcome; a `UserProcess` is checked for timeout, then put through
`pretest` and, only if `pretest` deferred, through the `test` method of the
effective comparator; the tuple-shaped value crashes the loop with
`AttributeError` at the `user_process.timeout()` call. -/
def process_one {C : Type} (testImpl : C → UserProcess → Test C → Result)
    (default : C) (test : Test C) (raw : RawRun) :
    Except String (Test C × Option UserProcess × Result) :=
  match Test.run test raw with
  | .res r => .ok (test, none, r)
  | .tup _ _ _ _ => .error "AttributeError: \x27tuple\x27 object has no attribute \x27timeout\x27"
  | .proc user_process =>
    if user_process.timeout then
      .ok (test, some user_process, err_timeout)
    else
      let cmp := test.comparator.getD default
      let pre := pretest user_process test
      let result :=
        match pre with
        | none => testImpl cmp user_process test
        | some r => r
      .ok (test, some user_process, result)

/-- The `Tester.run` loop over the registered tests paired with their oracle
outcomes, accumulating into a `Suite`; an uncaught exception in the body
aborts the whole run. -/
def run_loop {C : Type} (testImpl : C → UserProcess → Test C → Result) (default : C) :
    List (Test C × RawRun) → Suite C → Except String (Suite C)
  | [], suite => .ok suite
  | (test, raw) :: rest, suite =>
    match process_one testImpl default test raw with
    | .error e => .error e
    | .ok entry => run_loop testImpl default rest (suite.add_result entry.1 entry.2.1 entry.2.2)

/-- `Tester.run` of `suite.py`: abort with `FileNotFoundError` when the
program path does not exist as a file (`program_exists` is the
`os.path.exists` oracle), otherwise run every registered test in order
against its `RawRun` oracle value, starting from an empty `Suite`. -/
def Tester.run {C : Type} (testImpl : C → UserProcess → Test C → Result)
    (T : Tester C) (program : String) (program_exists : Bool)
    (raws : List RawRun) : Except String (Suite C) :=
  if ¬program_exists then
    .error s!"[FATAL ERROR] File (executable) named \x27{program}\x27 not found."
  else
    run_loop testImpl T.comparator (T.tests.zip raws) ⟨[]⟩

/-- The inner loop of `__calculate_final_sum` of `main.py`: accumulate
`coefficient * ratio` over the weight map, returning `0.0` outright as soon
as a weighted category is missing from the ratio map. -/
def final_sum_loop (raw_results : List (String × Rat)) :
    List (String × Rat) → Rat → Rat
  | [], f_sum => f_sum
  | (category, coefficient) :: rest, f_sum =>
    match raw_results.lookup category with
    | none => 0
    | some raw => final_sum_loop raw_results rest (f_sum + coefficient * raw)

/-- `__calculate_final_sum` of `main.py`: `0.0` when the weight map is absent
or empty, otherwise the guarded weighted sum over `results.get_results()`. -/
def calculate_final_sum {C : Type} (results : Suite C)
    (coefficients : Option (List (String × Rat))) : Rat :=
  match coefficients with
  | none => 0
  | some cs =>
    if cs.isEmpty then 0
    else final_sum_loop results.get_results cs 0

/-! Concrete fixtures used to instantiate the theorems below, all over the
trivial comparator-object type `Unit`. -/

/-- A domain `test` implementation that always succeeds. -/
def unitImpl : Unit → UserProcess → Test Unit → Result := fun _ _ _ => err_ok

/-- A distinguishable domain verdict, used to observe which phase produced
the final verdict. -/
def markResult : Result := ⟨Errno.ERROR_ASSERTION, some "domain verdict"⟩

/-- A domain `test` implementation that always returns `markResult`. -/
def markImpl : Unit → UserProcess → Test Unit → Result := fun _ _ _ => markResult

/-- An expected-failure test case (declared exit code 1) in argument mode. -/
def failTest : Test Unit :=
  ⟨"tf", ["B"], .scalar (.int 1), none, none, 1, 1, false, true, true, " ", none⟩

/-- An expected-pass test case in argument mode. -/
def passTest : Test Unit :=
  ⟨"tp", ["A"], .scalar (.int 1), some (.scalar (.int 1)), none, 1, 0, false, true, true, " ", none⟩

/-- An expected-pass test case configured for stdin delivery of raw (literal)
input — the configuration `Tester.__init__` defaults to. -/
def rawStdinTest : Test Unit :=
  ⟨"1 + 2", ["sum"], .list [.int 1, .int 2], some (.scalar (.int 3)), none, 1, 0,
   true, true, true, " ", none⟩

/-- An expected-pass test case tagged with category `A`. -/
def exTestA : Test Unit :=
  ⟨"ta", ["A"], .scalar (.int 1), none, none, 1, 0, false, true, true, " ", none⟩

/-- An expected-pass test case tagged with category `B`. -/
def exTestB : Test Unit :=
  ⟨"tb", ["B"], .scalar (.int 2), none, none, 1, 0, false, true, true, " ", none⟩

/-- A run record where the category-`A` test passed and the category-`B` test
failed, so the pass ratios are `A ↦ 1.0` and `B ↦ 0.0`. -/
def exSuiteAB : Suite Unit :=
  ⟨[(exTestA, some ⟨"", "", some 0, 1⟩, err_ok),
    (exTestB, some ⟨"", "", some 1, 1⟩, err_should_pass (some 1))]⟩

/-- A test case whose run will time out. -/
def timedOutTest : Test Unit :=
  ⟨"slow", ["T"], .scalar (.int 1), none, none, 1, 0, false, true, true, " ", none⟩

/-- A run record holding one timed-out test: the captured outcome is
`UserProcess("", "", None, 7)` and the verdict is the timeout verdict. -/
def timedOutSuite : Suite Unit :=
  ⟨[(timedOutTest, some ⟨"", "", none, 7⟩, err_timeout)]⟩

/-- A record whose outcome is absent (the launch raised an exception). -/
def killedRecord : Test Unit × Option UserProcess × Result :=
  (failTest, none, err_unknown "boom")

/-- A record whose process was killed by the timeout. -/
def timedOutRecord : Test Unit × Option UserProcess × Result :=
  (timedOutTest, some ⟨"", "", none, 7⟩, err_timeout)

/-! Helper lemmas. -/

/-- Unrolling `final_sum_loop` when every weighted category is present in the
ratio map: the loop accumulates the full weighted sum. -/
theorem final_sum_loop_all_present (raw_results : List (String × Rat))
    (cs : List (String × Rat)) (acc : Rat)
    (h : ∀ x ∈ cs, (List.lookup x.1 raw_results).isSome = true) :
    final_sum_loop raw_results cs acc =
      acc + (cs.map (fun x => x.2 * ((List.lookup x.1 raw_results).getD 0))).sum := by
  induction cs generalizing acc with
  | nil => simp [final_sum_loop]
  | cons hd tl ih =>
    obtain ⟨cat, coef⟩ := hd
    have hhd := h (cat, coef) (by simp)
    cases hlk : List.lookup cat raw_results with
    | none => rw [hlk] at hhd; simp at hhd
    | some v =>
      rw [hlk] at hhd
      simp only [final_sum_loop, hlk]
      rw [ih _ (fun x hx => h x (by simp [hx]))]
      simp [hlk]
      ring

/-- `final_sum_loop` returns `0` whatever the accumulator, as soon as one
weighted category is missing from the ratio map. -/
theorem final_sum_loop_missing (raw_results : List (String × Rat))
    (cs : List (String × Rat)) (cat : String) (coef : Rat)
    (hmem : (cat, coef) ∈ cs) (hnone : List.lookup cat raw_results = none) :
    ∀ acc, final_sum_loop raw_results cs acc = 0 := by
  induction cs with
  | nil => simp at hmem
  | cons hd tl ih =>
    intro acc
    obtain ⟨c2, k2⟩ := hd
    rcases List.mem_cons.mp hmem with heq | htl
    · rw [Prod.mk.injEq] at heq
      obtain ⟨h1, h2⟩ := heq
      subst h1
      simp [final_sum_loop, hnone]
    · simp only [final_sum_loop]
      cases hlk : List.lookup c2 raw_results with
      | none => rfl
      | some v => exact ih htl _

/-- Looking a key up in an association list built by pairing each list element
with a function value. -/
theorem lookup_map_pair (l : List String) (f : String → Rat) (cat : String) :
    List.lookup cat (l.map (fun c => (c, f c))) =
      if cat ∈ l then some (f cat) else none := by
  induction l with
  | nil => simp
  | cons hd tl ih =>
    by_cases h : cat = hd
    · simp [List.lookup, h]
    · simp only [List.map_cons, List.lookup]
      rw [show (cat == hd) = false from by simp [h]]
      simp [h, ih]

/-- Membership in `Suite.get_all_categories` is tagging of some record. -/
theorem mem_all_categories {C : Type} (S : Suite C) (cat : String) :
    cat ∈ S.get_all_categories ↔ ∃ x ∈ S.results, cat ∈ x.1.categories := by
  simp [Suite.get_all_categories, List.mem_dedup, List.mem_flatten]

/-- Claim C1: for every expected-failure test case whose runner delivered a
completed outcome (an exit code present, so no timeout, and no launch
exception), the run-loop body records exactly the verdict of the fixed
priority chain — exit code 0 gives the should-fail verdict, else empty stderr
gives the stderr-empty verdict, else non-empty stdout gives the
stdout-not-empty verdict, else a wrong exit code gives the wrong-exit-code
verdict, else success — and the result is the same for every domain `test`
implementation, which is therefore never invoked. -/
theorem c1_expected_fail_priority {C : Type}
    (testImpl : C → UserProcess → Test C → Result) (default : C)
    (t : Test C) (raw : RawRun) (p : UserProcess) (c : Int)
    (hrun : Test.run t raw = .proc p)
    (hdone : p.exitcode = some c)
    (hfail : t.passes = false) :
    process_one testImpl default t raw =
      .ok (t, some p,
        if c = 0 then err_should_fail
        else if p.stderr = "" then err_stderr_empty
        else if p.stdout ≠ "" then err_stdout_not_empty p.stdout
        else if c ≠ t.exitcode then err_exitcode (some c) t.exitcode
        else err_ok) := by
  unfold process_one
  rw [hrun]
  simp [UserProcess.timeout, hdone, pretest, hfail, should_fail]

/-- Witness for C1: a completed expected-failure run with exit code 1, empty
stdout and non-empty stderr is recorded as success. -/
theorem c1_witness :
    Test.run failTest (.completed "" "boom" 1 5) = .proc ⟨"", "boom", some 1, 5⟩ ∧
    failTest.passes = false ∧
    process_one unitImpl () failTest (.completed "" "boom" 1 5) =
      .ok (failTest, some ⟨"", "boom", some 1, 5⟩, err_ok) := by
  refine ⟨rfl, by decide, ?_⟩
  have h := c1_expected_fail_priority unitImpl () failTest (.completed "" "boom" 1 5)
    ⟨"", "boom", some 1, 5⟩ 1 rfl rfl (by decide)
  simpa [failTest] using h

/-- Claim C2: for every expected-pass test case whose runner delivered a
completed outcome, exit code 0 with empty stderr makes `pretest` defer and
the recorded verdict is exactly the value the effective domain `test`
implementation returns; a nonzero exit code records the should-pass verdict
and exit code 0 with non-empty stderr records the stderr-not-empty verdict,
in both cases independently of the domain `test` implementation. -/
theorem c2_expected_pass_defer {C : Type}
    (testImpl : C → UserProcess → Test C → Result) (default : C)
    (t : Test C) (raw : RawRun) (p : UserProcess) (c : Int)
    (hrun : Test.run t raw = .proc p)
    (hdone : p.exitcode = some c)
    (hpass : t.passes = true) :
    (c = 0 → p.stderr = "" →
      pretest p t = none ∧
      process_one testImpl default t raw =
        .ok (t, some p, testImpl (t.comparator.getD default) p t)) ∧
    (c ≠ 0 →
      process_one testImpl default t raw = .ok (t, some p, err_should_pass (some c))) ∧
    (c = 0 → p.stderr ≠ "" →
      process_one testImpl default t raw = .ok (t, some p, err_stderr_not_empty p.stderr)) := by
  unfold process_one
  rw [hrun]
  refine ⟨?_, ?_, ?_⟩
  · intro hc hs
    constructor
    · simp [pretest, hpass, should_pass, hdone, hc, hs]
    · simp [UserProcess.timeout, hdone, pretest, hpass, should_pass, hc, hs]
  · intro hc
    simp [UserProcess.timeout, hdone, pretest, hpass, should_pass, hc]
  · intro hc hs
    simp [UserProcess.timeout, hdone, pretest, hpass, should_pass, hc, hs]

/-- Witness for C2: a clean expected-pass run (exit 0, empty stderr) defers
to the domain `test`, whose marker verdict is recorded unchanged. -/
theorem c2_witness :
    passTest.passes = true ∧
    pretest ⟨"out", "", some 0, 5⟩ passTest = none ∧
    process_one markImpl () passTest (.completed "out" "" 0 5) =
      .ok (passTest, some ⟨"out", "", some 0, 5⟩, markResult) := by
  have h := (c2_expected_pass_defer markImpl () passTest (.completed "out" "" 0 5)
    ⟨"out", "", some 0, 5⟩ 0 rfl rfl (by decide)).1 rfl rfl
  exact ⟨by decide, h.1, h.2⟩

/-- Claim C3: a timed-out run always delivers the outcome
`UserProcess("", "", None, elapsed)` — sentinel exit code, empty captured
streams — and the run-loop body records exactly the timeout verdict, for every
test case (hence every per-test comparator override) and every domain `test`
implementation and default comparator: no comparator operation is consulted. -/
theorem c3_timeout_verdict {C : Type}
    (testImpl : C → UserProcess → Test C → Result) (default : C)
    (t : Test C) (elapsed : Int) :
    Test.run t (.timedOut elapsed) = .proc ⟨"", "", none, elapsed⟩ ∧
    process_one testImpl default t (.timedOut elapsed) =
      .ok (t, some ⟨"", "", none, elapsed⟩, err_timeout) := ⟨rfl, rfl⟩

/-- Claim C4: the aggregate score of `__calculate_final_sum`.  On the
concrete record with ratios `A ↦ 1.0, B ↦ 0.0` and weights `0.5/0.5` the
score is `0.5`; whenever every weighted category is present in the ratio map
the score is the weighted sum of the ratios; and whenever some weighted
category is missing from the ratio map the score is exactly `0`. -/
theorem c4_final_sum {C : Type} (S : Suite C) (cs : List (String × Rat)) :
    calculate_final_sum exSuiteAB (some [("A", 1/2), ("B", 1/2)]) = 1/2 ∧
    ((∀ x ∈ cs, (List.lookup x.1 S.get_results).isSome = true) →
      calculate_final_sum S (some cs) =
        (cs.map (fun x => x.2 * ((List.lookup x.1 S.get_results).getD 0))).sum) ∧
    (∀ cat coef, (cat, coef) ∈ cs → List.lookup cat S.get_results = none →
      calculate_final_sum S (some cs) = 0) := by
  refine ⟨?_, ?_, ?_⟩
  · simp [calculate_final_sum, final_sum_loop, Suite.get_results, Suite.get_all_categories,
      Suite.get_number_passed, Suite.get_number_total, exSuiteAB, exTestA, exTestB,
      List.lookup, List.countP, List.countP.go, Result.ok, err_ok, err_should_pass, List.dedup,
      show (Errno.ERROR_SHOULD_PASS == Errno.ERROR_SUCCESS) = false from rfl,
      show (Errno.ERROR_SUCCESS == Errno.ERROR_SUCCESS) = true from rfl]
  · intro h
    cases cs with
    | nil => simp [calculate_final_sum]
    | cons hd tl =>
      simp only [calculate_final_sum, List.isEmpty_cons, if_false, Bool.false_eq_true]
      rw [final_sum_loop_all_present _ _ _ h]
      simp
  · intro cat coef hmem hnone
    cases cs with
    | nil => simp at hmem
    | cons hd tl =>
      simp only [calculate_final_sum, List.isEmpty_cons, if_false, Bool.false_eq_true]
      exact final_sum_loop_missing _ _ cat coef hmem hnone 0

/-- Witness for C4: the example score is `0.5`, and dropping category `B`
from the weight map in favour of an unrecorded category `C` forces `0`. -/
theorem c4_witness :
    calculate_final_sum exSuiteAB (some [("A", 1/2), ("B", 1/2)]) = 1/2 ∧
    calculate_final_sum exSuiteAB (some [("A", 1/2), ("C", 1/2)]) = 0 := by
  refine ⟨(c4_final_sum exSuiteAB ([] : List (String × Rat))).1, ?_⟩
  exact (c4_final_sum exSuiteAB [("A", 1/2), ("C", 1/2)]).2.2 "C" (1/2) (by simp) (by decide)

/-- Claim C5: the category score map of `Suite.get_results` contains exactly
the categories tagging at least one record; every value it holds is the
`passed / total` ratio of that category, whose divisor `total` is at least 1
(so the division-by-zero branch is unreachable); a category tagging no record
is absent, not present with value 0. -/
theorem c5_category_scores {C : Type} (S : Suite C) (cat : String) :
    ((List.lookup cat S.get_results).isSome = true ↔
      ∃ x ∈ S.results, cat ∈ x.1.categories) ∧
    (∀ r, List.lookup cat S.get_results = some r →
      r = (S.get_number_passed cat : Rat) / (S.get_number_total cat : Rat) ∧
      1 ≤ S.get_number_total cat) := by
  have hres : S.get_results = S.get_all_categories.map
      (fun c => (c, ((S.get_number_passed c : Rat) / (S.get_number_total c : Rat)))) := rfl
  have hlk := lookup_map_pair S.get_all_categories
      (fun c => ((S.get_number_passed c : Rat) / (S.get_number_total c : Rat))) cat
  constructor
  · rw [hres, hlk]
    by_cases hmem : cat ∈ S.get_all_categories
    · simp only [if_pos hmem, Option.isSome_some]
      simp [(mem_all_categories S cat).mp hmem]
    · simp only [if_neg hmem, Option.isSome_none]
      simp only [Bool.false_eq_true, false_iff]
      intro hex
      exact hmem ((mem_all_categories S cat).mpr hex)
  · intro r hr
    rw [hres, hlk] at hr
    by_cases hmem : cat ∈ S.get_all_categories
    · rw [if_pos hmem] at hr
      obtain ⟨x, hx, hcat⟩ := (mem_all_categories S cat).mp hmem
      refine ⟨(Option.some.injEq _ _ |>.mp hr).symm, ?_⟩
      have hpos : 0 < S.get_number_total cat := by
        rw [Suite.get_number_total]
        refine List.countP_pos_iff.mpr ⟨x, hx, ?_⟩
        simpa using hcat
      omega
    · rw [if_neg hmem] at hr
      cases hr

/-- Witness for C5: category `A` of the example record is present in the
score map and its divisor is at least 1. -/
theorem c5_witness :
    (List.lookup "A" (Suite.get_results exSuiteAB)).isSome = true ∧
    1 ≤ exSuiteAB.get_number_total "A" := by
  have hmem : ∃ x ∈ exSuiteAB.results, "A" ∈ x.1.categories :=
    ⟨(exTestA, some ⟨"", "", some 0, 1⟩, err_ok), by simp [exSuiteAB], by simp [exTestA]⟩
  have h1 := (c5_category_scores exSuiteAB "A").1.mpr hmem
  obtain ⟨r, hr⟩ := Option.isSome_iff_exists.mp h1
  exact ⟨h1, ((c5_category_scores exSuiteAB "A").2 r hr).2⟩

/-- Counterexample to claim C6 as stated: on a record whose process was
killed by timeout, the JSON entry does not carry the four
`<process was killed>` sentinel strings — its elapsed-time field is the
measured integer 7 and its stdout field is the `<no standard output>`
placeholder. -/
theorem c6_counterexample :
    (timedOutSuite.results.map (fun x => x.2.1)) = [some ⟨"", "", none, 7⟩] ∧
    UserProcess.timeout ⟨"", "", none, 7⟩ = true ∧
    (timedOutSuite.json.map (fun e => e.2.time)) = [JsonVal.int 7] ∧
    JsonVal.int 7 ≠ JsonVal.str "<process was killed>" ∧
    (timedOutSuite.json.map (fun e => e.2.stdout)) = ["<no standard output>"] := by
  decide

/-- Claim C6 (amended): the JSON entries are, in order, exactly
`json_single_result` of the records; an entry carries the four
`<process was killed>` sentinels exactly when the record's outcome is absent
(its launch raised an exception); when an outcome is present the elapsed-time
field is always the measured timestamp, the exit-code field is the
`<timeout>` sentinel exactly on timeout and the numeric exit code otherwise,
and the stdout/stderr fields are the escaped captured streams when non-empty
and fixed placeholder strings when empty. -/
theorem c6_amended {C : Type} (S : Suite C) (x : Test C × Option UserProcess × Result) :
    (S.json.map Prod.snd = S.results.map json_single_result) ∧
    ((x.2.1 = none) ↔
      ((json_single_result x).stdout = "<process was killed>" ∧
       (json_single_result x).stderr = "<process was killed>" ∧
       (json_single_result x).exitcode = JsonVal.str "<process was killed>" ∧
       (json_single_result x).time = JsonVal.str "<process was killed>")) ∧
    (∀ p : UserProcess, x.2.1 = some p →
      (json_single_result x).time = JsonVal.int p.timestamp ∧
      ((json_single_result x).exitcode = JsonVal.str "<timeout>" ↔ p.exitcode = none) ∧
      (∀ c : Int, p.exitcode = some c → (json_single_result x).exitcode = JsonVal.int c) ∧
      (p.stdout = "" → (json_single_result x).stdout = "<no standard output>") ∧
      (p.stdout ≠ "" → (json_single_result x).stdout = escape p.stdout) ∧
      (p.stderr = "" → (json_single_result x).stderr = "<no error output>") ∧
      (p.stderr ≠ "" → (json_single_result x).stderr = escape p.stderr)) := by
  obtain ⟨t, up, r⟩ := x
  refine ⟨?_, ?_, ?_⟩
  · have h1 : S.json.map Prod.snd = S.results.enum.map (fun p => json_single_result p.2) := by
      rw [Suite.json, List.map_map]
      rfl
    have h2 : S.results.enum.map (fun p => json_single_result p.2) =
        S.results.map json_single_result := by
      rw [show (fun p : Nat × (Test C × Option UserProcess × Result) => json_single_result p.2) =
        (json_single_result ∘ Prod.snd) from rfl]
      rw [← List.map_map, List.enum_map_snd]
    rw [h1, h2]
  · cases up with
    | none => simp [json_single_result]
    | some p =>
      simp only [json_single_result]
      constructor
      · intro h; cases h
      · rintro ⟨-, -, -, h4⟩
        cases h4
  · rintro p rfl
    refine ⟨rfl, ?_, ?_, ?_, ?_, ?_, ?_⟩
    · cases hc : p.exitcode with
      | none => simp [json_single_result, hc]
      | some c =>
        simp only [json_single_result, hc]
        constructor
        · intro h; cases h
        · intro h; cases h
    · intro c hc; simp [json_single_result, hc]
    · intro h; simp [json_single_result, h]
    · intro h; simp [json_single_result, h]
    · intro h; simp [json_single_result, h]
    · intro h; simp [json_single_result, h]

/-- Witness for the amended C6: the absent-outcome record gets the sentinel
time field, the timed-out record gets the measured time and the `<timeout>`
exit-code sentinel. -/
theorem c6_witness :
    (json_single_result killedRecord).time = JsonVal.str "<process was killed>" ∧
    (json_single_result timedOutRecord).time = JsonVal.int 7 ∧
    (json_single_result timedOutRecord).exitcode = JsonVal.str "<timeout>" := by
  have h1 := ((c6_amended timedOutSuite killedRecord).2.1.mp rfl).2.2.2
  have h2 := (c6_amended timedOutSuite timedOutRecord).2.2 ⟨"", "", none, 7⟩ rfl
  exact ⟨h1, h2.1, h2.2.1.mpr rfl⟩

/-- Claim C7: a launch-level exception is recorded as an unknown-verdict
entry carrying the (escaped) exception message with an absent outcome; the
run-loop then continues with the remaining test cases; and conversely, any
recorded entry with an absent outcome comes from a raised engine exception
(never from a delivered completed or timed-out outcome) and carries that
exception's message in its unknown verdict. -/
theorem c7_launch_exception {C : Type}
    (testImpl : C → UserProcess → Test C → Result) (default : C)
    (t : Test C) (raw : RawRun) (msg : String)
    (rest : List (Test C × RawRun)) (suite : Suite C) :
    (process_one testImpl default t (.launchError msg) = .ok (t, none, err_unknown msg)) ∧
    (run_loop testImpl default ((t, .launchError msg) :: rest) suite =
      run_loop testImpl default rest (suite.add_result t none (err_unknown msg))) ∧
    (∀ entry, process_one testImpl default t raw = .ok entry → entry.2.1 = none →
      ∃ m, Test.runnerModel t raw = .error m ∧ entry.2.2 = err_unknown m) := by
  refine ⟨rfl, rfl, ?_⟩
  intro entry hok habsent
  unfold process_one Test.run at hok
  cases hmodel : Test.runnerModel t raw with
  | error m =>
    rw [hmodel] at hok
    simp at hok
    exact ⟨m, rfl, by simp [← hok]⟩
  | ok rr =>
    rw [hmodel] at hok
    cases rr with
    | proc p =>
      simp at hok
      by_cases htm : p.timeout = true <;> simp [htm] at hok <;>
        · rw [← hok] at habsent; simp at habsent
    | tup a b c d => simp at hok

/-- Witness for C7: a launch error with message `boom` is recorded as an
absent-outcome unknown verdict, and that entry traces back to the raised
exception. -/
theorem c7_witness :
    process_one unitImpl () failTest (.launchError "boom") =
      .ok (failTest, none, err_unknown "boom") ∧
    (∃ m, Test.runnerModel failTest (.launchError "boom") = .error m ∧
      err_unknown "boom" = err_unknown m) := by
  have h := c7_launch_exception unitImpl () failTest (.launchError "boom") "boom" [] ⟨[]⟩
  exact ⟨h.1, h.2.2 (failTest, none, err_unknown "boom") h.1 rfl⟩

/-- Claim C8: intended behaviour of the raw-stdin execution path, which the
code does not deliver — the runner's stdin-mode raw-input branch returns the
bare tuple `(elapsed, (stdout, stderr, returncode))` instead of a
`UserProcess`, after which the run loop crashes with `AttributeError` instead
of classifying the outcome. -/
theorem c8_raw_stdin_tuple_bug :
    Test.run rawStdinTest (.completed "3\n" "" 0 5) = .tup 5 "3\n" "" 0 ∧
    process_one unitImpl () rawStdinTest (.completed "3\n" "" 0 5) =
      .error "AttributeError: \x27tuple\x27 object has no attribute \x27timeout\x27" := ⟨rfl, rfl⟩

/-- Claim C9: when the program path does not exist as a file, `Tester.run`
aborts with the fatal file-not-found error before executing any test case,
producing no suite and hence no per-test verdict. -/
theorem c9_missing_program_aborts {C : Type}
    (testImpl : C → UserProcess → Test C → Result)
    (T : Tester C) (program : String) (raws : List RawRun) :
    Tester.run testImpl T program false raws =
      .error s!"[FATAL ERROR] File (executable) named \x27{program}\x27 not found." := by
  simp [Tester.run]

/-- Claim C10: the `Tester` constructor succeeds exactly when the input
configuration is standard-input mode or raw (literal) input, and every
successfully constructed `Tester` — which carries the requested flags —
satisfies that invariant. -/
theorem c10_constructor_invariant {C : Type} (comparator : C)
    (is_stdin_input is_raw_input is_raw_output : Bool) (input_separator : String) :
    ((Tester.init comparator is_stdin_input is_raw_input is_raw_output input_separator).isOk ↔
      (is_stdin_input = true ∨ is_raw_input = true)) ∧
    (∀ T : Tester C,
      Tester.init comparator is_stdin_input is_raw_input is_raw_output input_separator = .ok T →
      (T.is_stdin_input = true ∨ T.is_raw_input = true) ∧
      T.is_stdin_input = is_stdin_input ∧ T.is_raw_input = is_raw_input) := by
  constructor
  · unfold Tester.init
    by_cases h1 : is_stdin_input = true <;> by_cases h2 : is_raw_input = true <;>
      simp [h1, h2, Except.isOk, Except.toBool]
  · intro T hT
    unfold Tester.init at hT
    by_cases h1 : is_stdin_input = true <;> by_cases h2 : is_raw_input = true <;>
      simp [h1, h2] at hT <;> simp [← hT, h1, h2]

/-- Witness for C10: the argument-mode/file-input combination is rejected at
construction, and a default-flag construction succeeds with the invariant. -/
theorem c10_witness :
    (Tester.init () false false true " " : Except String (Tester Unit)).isOk = false ∧
    (∃ T : Tester Unit, Tester.init () true true true " " = .ok T ∧
      (T.is_stdin_input = true ∨ T.is_raw_input = true)) := by
  have h1 := (c10_constructor_invariant (C := Unit) () false false true " ").1
  have h2 := c10_constructor_invariant (C := Unit) () true true true " "
  constructor
  · cases hv : (Tester.init () false false true " " : Except String (Tester Unit)).isOk with
    | false => rfl
    | true => exact absurd (h1.mp hv) (by simp)
  · exact ⟨⟨(), true, true, true, " ", []⟩, rfl, (h2.2 _ rfl).1⟩

end SuitePy
